import Mathlib

/-!
# Verification of the phase-contract orchestration and compliance engine

A shallow embedding, in Lean 4, of the infra scripts of this repository:

* `infra_scripts/ops.py` — remote command executor (`run_command`), shell
  quoting (`shlex.join` / `shlex.quote`), artifact archive/fetch, and run
  submission (`runs_submit`);
* `infra_scripts/workflow_phase_court.py` — the Phase Court validator
  (`validate_evidence`) and its `main` entry point;
* `infra_scripts/sweeps/sweep_status.py` — the sweep status aggregator
  (`compute_status`);
* `examples/nanogpt/train.py` — the atomic JSON writer
  (`_atomic_write_json`).

JSON documents are modelled by the inductive type `Json` (integers stand in
for JSON numbers; none of the verified code paths involve floats).  Python
dictionaries parsed from JSON are association lists (`Obj`); on duplicate
keys Python's `json.loads` keeps the last occurrence, hence `lookupLast`.
Filesystem reads are environment functions passed explicitly; filesystem
writes are traces of `FsOp` values.  Remote command execution is an oracle
`List String → CommandResult`; commands actually executed (as opposed to
dry-run rendered) are collected in an explicit trace.  Python exceptions
that the scripts do not catch are modelled with `Except PyErr`.
-/

namespace InfraSpec

/-- JSON values (the integer fragment; the verified code never branches on
float-valued fields). -/
inductive Json where
  | null
  | bool (b : Bool)
  | num (n : Int)
  | str (s : String)
  | arr (xs : List Json)
  | obj (kvs : List (String × Json))
deriving Inhabited

/-- A parsed JSON object, as Python's `json.loads` presents it: an ordered
list of key/value pairs. -/
abbrev Obj := List (String × Json)

/-- Value of key `k`, taking the *last* occurrence (Python's `json.loads`
keeps the last duplicate key). -/
def lookupLast (kvs : Obj) (k : String) : Option Json :=
  match kvs with
  | [] => none
  | (k', v) :: rest =>
    match lookupLast rest k with
    | some r => some r
    | none => if k' = k then some v else none

/-- `k in d` for a Python dict. -/
def containsKey (kvs : Obj) (k : String) : Bool :=
  kvs.any (fun kv => kv.1 = k)

/-- Python `d.get(k, default)`. -/
def getD (kvs : Obj) (k : String) (default : Json) : Json :=
  (lookupLast kvs k).getD default

/-- Python truthiness of a JSON-shaped value. -/
def pyTruthy : Json → Bool
  | .null => false
  | .bool b => b
  | .num n => n ≠ 0
  | .str s => s ≠ ""
  | .arr xs => ¬ xs.isEmpty
  | .obj kvs => ¬ kvs.isEmpty

/-- Python `x or y` on JSON-shaped values. -/
def pyOr (x y : Json) : Json :=
  if pyTruthy x then x else y

/-- Python `repr` of a value parsed from JSON (string escapes inside
container reprs are not modelled; no verified path inspects them). -/
def pyRepr : Json → String
  | .null => "None"
  | .bool true => "True"
  | .bool false => "False"
  | .num n => toString n
  | .str s => "'" ++ s ++ "'"
  | .arr xs => "[" ++ String.intercalate ", " (xs.attach.map (fun x => pyRepr x.1)) ++ "]"
  | .obj kvs =>
    "\x7b" ++
      String.intercalate ", "
        (kvs.attach.map (fun kv => "'" ++ kv.1.1 ++ "': " ++ pyRepr kv.1.2)) ++
    "\x7d"
decreasing_by
  · have h := List.sizeOf_lt_of_mem x.2
    simp only [Json.arr.sizeOf_spec]
    omega
  · have h := List.sizeOf_lt_of_mem kv.2
    obtain ⟨⟨k, v⟩, hm⟩ := kv
    simp only [Json.obj.sizeOf_spec, Prod.mk.sizeOf_spec] at h ⊢
    omega

/-- Python `str` of a value parsed from JSON. -/
def pyStr : Json → String
  | .str s => s
  | v => pyRepr v

/-- Python `str.strip()` (ASCII whitespace). -/
def pyStrip (s : String) : String :=
  String.mk (((s.toList.dropWhile Char.isWhitespace).reverse.dropWhile
    Char.isWhitespace).reverse)

/-- Python `str.rstrip('/')`. -/
def pyRstripSlash (s : String) : String :=
  String.mk ((s.toList.reverse.dropWhile (· = '/')).reverse)

/-- Python `int(v)` for a JSON-shaped `v`, with `fallback` when `int()`
raises (`TypeError`/`ValueError`): accepts ints, bools, and digit strings
with optional sign and surrounding whitespace. -/
def pyToIntD (v : Json) (fallback : Int) : Int :=
  match v with
  | .num n => n
  | .bool b => if b then 1 else 0
  | .str s =>
    let t := pyStrip s
    let core := if t.startsWith "-" ∨ t.startsWith "+" then t.drop 1 else t
    if core ≠ "" ∧ core.toList.all Char.isDigit then
      (if t.startsWith "-" then -1 else 1) * (Int.ofNat core.toNat!)
    else fallback
  | _ => fallback

/-- Code-point lexicographic comparison on char lists (Python `<=` on
`str`). -/
def listLe : List Char → List Char → Bool
  | [], _ => true
  | _ :: _, [] => false
  | a :: as, b :: bs =>
    if a.toNat < b.toNat then true
    else if b.toNat < a.toNat then false
    else listLe as bs

/-- Python `<=` on strings. -/
def strLeB (a b : String) : Bool := listLe a.toList b.toList

/-- Insertion sort on strings (stable, hence equal to Python `sorted` on
`str`). -/
def insertStr (x : String) : List String → List String
  | [] => [x]
  | y :: ys => if strLeB x y then x :: y :: ys else y :: insertStr x ys

/-- Python `sorted` on a list of strings. -/
def sortStr : List String → List String
  | [] => []
  | x :: xs => insertStr x (sortStr xs)

/-- Remove adjacent duplicates from a sorted list. -/
def dedupAdj : List String → List String
  | [] => []
  | [x] => [x]
  | x :: y :: rest => if x = y then dedupAdj (y :: rest) else x :: dedupAdj (y :: rest)

/-- Python `sorted(set(...))` over strings. -/
def sortedDedup (l : List String) : List String :=
  dedupAdj (sortStr l)

/-- Python `sep.join(items)`. -/
def joinSep (sep : String) : List String → String
  | [] => ""
  | [x] => x
  | x :: xs => x ++ sep ++ joinSep sep xs

/-- Python `a or b` on strings. -/
def orStr (a b : String) : String :=
  if a = "" then b else a

/-- The single-quote character (shlex's quoting character). -/
def sq : Char := Char.ofNat 39

/-- `True` iff shlex leaves the character unquoted: ASCII `\w` plus the
characters `@ % + = : , . / -` (complement of `shlex._find_unsafe`). -/
def shSafeChar (c : Char) : Bool :=
  c.isAlphanum || ['_', '@', '%', '+', '=', ':', ',', '.', '/', '-'].contains c

/-- Inside single quotes, each `'` becomes `'"'"'`. -/
def shEscInner (s : String) : String :=
  String.mk (s.toList.flatMap (fun c =>
    if c = sq then [sq, '"', sq, '"', sq] else [c]))

/-- `shlex.quote`. -/
def shlexQuote (s : String) : String :=
  if s = "" then "\x27\x27"
  else if s.toList.all shSafeChar then s
  else "\x27" ++ shEscInner s ++ "\x27"

/-- `shlex.join`, i.e. `shell_join` in `infra_scripts/ops.py`. -/
def shell_join (command : List String) : String :=
  joinSep " " (command.map shlexQuote)

/-- JSON string escaping as `json.dumps` performs it (no verified string
contains a character below `0x20` other than those listed, so the
`\u00XX` fallback is not modelled). -/
def jsonEscChar (c : Char) : List Char :=
  if c = '"' then ['\\', '"']
  else if c = '\\' then ['\\', '\\']
  else if c = '\n' then ['\\', 'n']
  else if c = '\t' then ['\\', 't']
  else if c = '\r' then ['\\', 'r']
  else [c]

def jsonEscape (s : String) : String :=
  String.mk (s.toList.flatMap jsonEscChar)

def spacesN (n : Nat) : String :=
  String.mk (List.replicate n ' ')

/-- Layout of a JSON container: `json.dumps` renders compact containers
with `", "` separators, and indented containers one item per line. -/
def wrapSeq (openB closeB : String) (ind : Option Nat) (lvl : Nat)
    (items : List String) : String :=
  match ind with
  | none => openB ++ joinSep ", " items ++ closeB
  | some w =>
    openB ++ "\n" ++
      joinSep ",\n" (items.map (fun it => spacesN ((lvl + 1) * w) ++ it)) ++
    "\n" ++ spacesN (lvl * w) ++ closeB

/-- Insertion sort of rendered object items by key (Python `sorted` on
`dict.items()` under `sort_keys=True`). -/
def insertItem (x : String × String) :
    List (String × String) → List (String × String)
  | [] => [x]
  | y :: ys => if strLeB x.1 y.1 then x :: y :: ys else y :: insertItem x ys

def sortItems : List (String × String) → List (String × String)
  | [] => []
  | x :: xs => insertItem x (sortItems xs)

/-- `json.dumps(j, sort_keys=sk, indent=ind)` at nesting level `lvl`. -/
def pyJsonDumpsAux (sk : Bool) (ind : Option Nat) : Nat → Json → String
  | _, .null => "null"
  | _, .bool true => "true"
  | _, .bool false => "false"
  | _, .num n => toString n
  | _, .str s => "\"" ++ jsonEscape s ++ "\""
  | _, .arr [] => "[]"
  | lvl, .arr xs =>
    wrapSeq "[" "]" ind lvl
      (xs.attach.map (fun x => pyJsonDumpsAux sk ind (lvl + 1) x.1))
  | _, .obj [] => "\x7b\x7d"
  | lvl, .obj kvs =>
    let rendered :=
      kvs.attach.map (fun kv => (kv.1.1, pyJsonDumpsAux sk ind (lvl + 1) kv.1.2))
    let rendered := if sk then sortItems rendered else rendered
    wrapSeq "\x7b" "\x7d" ind lvl
      (rendered.map (fun kv => "\"" ++ jsonEscape kv.1 ++ "\": " ++ kv.2))
termination_by _ j => sizeOf j
decreasing_by
  · have h := List.sizeOf_lt_of_mem x.2
    simp only [Json.arr.sizeOf_spec]
    omega
  · have h := List.sizeOf_lt_of_mem kv.2
    obtain ⟨⟨k, v⟩, hm⟩ := kv
    simp only [Json.obj.sizeOf_spec, Prod.mk.sizeOf_spec] at h ⊢
    omega

/-- `json.dumps(payload, indent=2, sort_keys=True)`, as both the Phase
Court and `_atomic_write_json` call it. -/
def pyJsonDumps (j : Json) : String :=
  pyJsonDumpsAux true (some 2) 0 j

/-- `json.dumps(value)` with default arguments (`normalize_value` in
`ops.py`). -/
def pyJsonDumpsCompact (j : Json) : String :=
  pyJsonDumpsAux false none 0 j

/-- A filesystem write effect. -/
inductive FsOp where
  | mkdirAll (path : String)
  | writeFile (path : String) (content : String)
  | rename (src : String) (dst : String)

/-- `True` on a rename step. -/
def FsOp.isRen : FsOp → Bool
  | .rename _ _ => true
  | _ => false

/-- `True` when a direct write targets the given path. -/
def FsOp.writesTo (p : String) : FsOp → Bool
  | .writeFile q _ => q = p
  | _ => false

/-- Directory-level semantics of a write trace: the set of directories
after applying the operations (renames and file writes do not create
directories). -/
def applyFsOps (ops : List FsOp) (dirs : List String) : List String :=
  match ops with
  | [] => dirs
  | .mkdirAll p :: rest =>
    applyFsOps rest (if dirs.contains p then dirs else dirs ++ [p])
  | .writeFile _ _ :: rest => applyFsOps rest dirs
  | .rename _ _ :: rest => applyFsOps rest dirs

/-- `True` iff the string's final character is a newline. -/
def endsWithNewline (s : String) : Bool :=
  match s.toList.getLast? with
  | some c => c = '\n'
  | none => false

/-- Result of one command execution (`CommandResult` in `ops.py`). -/
structure CommandResult where
  stdout : String
  stderr : String
  returncode : Int

/-- The transport: what the outside world answers when a command list is
actually executed. -/
abbrev Transport := List String → CommandResult

/-- `run_command` from `ops.py`, paired with the trace of commands that
were actually executed (empty under `dry_run`). -/
def run_command (command : List String) (dry_run : Bool) (exec : Transport) :
    CommandResult × List (List String) :=
  if dry_run then (⟨shell_join command, "", 0⟩, [])
  else
    let r := exec command
    (⟨pyStrip r.stdout, pyStrip r.stderr, r.returncode⟩, [command])

/-! ## Phase Court (`infra_scripts/workflow_phase_court.py`) -/

/-- An uncaught Python exception. -/
inductive PyErr where
  | attributeError

/-- A readable filesystem: `none` = path does not exist, `some none` =
exists but reading or JSON-parsing raises, `some (some j)` = parses to
`j`. -/
abbrev FileSys := String → Option (Option Json)

structure PhaseContract where
  intent : String
  laws : List String
  commands : List String

/-- `PHASE_CONTRACTS`, transcribed verbatim. -/
def PHASE_CONTRACTS : List (String × PhaseContract) := [
  ("P00", ⟨"Precheck constitutional prerequisites before any remote mutation.",
    ["LAW_1_CANONICAL_CONFIG", "LAW_2_SINGLE_CANONICAL_LIFECYCLE",
     "LAW_4_NONINTERACTIVE_SAFETY", "LAW_6_PROVENANCE",
     "LAW_9_PHASE_END_CONSTITUTIONAL_VALIDATION"],
    ["flow-precheck"]⟩),
  ("P10", ⟨"Provision pod deterministically or explicitly mark policy skip.",
    ["LAW_3_TARGET_RESOLUTION", "LAW_4_NONINTERACTIVE_SAFETY",
     "LAW_5_PHASE_CONTRACT", "LAW_6_PROVENANCE",
     "LAW_9_PHASE_END_CONSTITUTIONAL_VALIDATION"],
    ["pod-up", "provision-policy"]⟩),
  ("P20", ⟨"Resolve and lock a legal execution target for remaining phases.",
    ["LAW_3_TARGET_RESOLUTION", "LAW_5_PHASE_CONTRACT", "LAW_6_PROVENANCE",
     "LAW_9_PHASE_END_CONSTITUTIONAL_VALIDATION"],
    ["target-bind"]⟩),
  ("P30", ⟨"Prove remote target is reachable and pod is ready.",
    ["LAW_5_PHASE_CONTRACT", "LAW_6_PROVENANCE",
     "LAW_9_PHASE_END_CONSTITUTIONAL_VALIDATION"],
    ["pod-status"]⟩),
  ("P40", ⟨"Satisfy bootstrap prerequisites and helper initialization policy.",
    ["LAW_5_PHASE_CONTRACT", "LAW_6_PROVENANCE",
     "LAW_9_PHASE_END_CONSTITUTIONAL_VALIDATION"],
    ["bootstrap"]⟩),
  ("P50", ⟨"Checkout repository and validate torch/data contracts for training readiness.",
    ["LAW_5_PHASE_CONTRACT", "LAW_6_PROVENANCE", "LAW_8_DOC_SCRIPT_CONSISTENCY",
     "LAW_9_PHASE_END_CONSTITUTIONAL_VALIDATION"],
    ["checkout"]⟩),
  ("P60", ⟨"Start, resume-check, or policy-skip sweep in a declared mode.",
    ["LAW_5_PHASE_CONTRACT", "LAW_6_PROVENANCE",
     "LAW_9_PHASE_END_CONSTITUTIONAL_VALIDATION"],
    ["sweep-start", "sweep-status", "sweep-policy"]⟩),
  ("P70", ⟨"Monitor sweep completion state via wait or snapshot path.",
    ["LAW_5_PHASE_CONTRACT", "LAW_6_PROVENANCE",
     "LAW_9_PHASE_END_CONSTITUTIONAL_VALIDATION"],
    ["sweep-wait", "sweep-status"]⟩),
  ("P80", ⟨"Fetch artifacts according to explicit fetch policy.",
    ["LAW_5_PHASE_CONTRACT", "LAW_6_PROVENANCE",
     "LAW_9_PHASE_END_CONSTITUTIONAL_VALIDATION"],
    ["fetch-policy", "fetch-all", "fetch-run"]⟩),
  ("P90", ⟨"Apply explicit teardown policy without implicit destruction.",
    ["LAW_7_EXPLICIT_DESTRUCTION", "LAW_5_PHASE_CONTRACT", "LAW_6_PROVENANCE",
     "LAW_9_PHASE_END_CONSTITUTIONAL_VALIDATION"],
    ["teardown-policy", "pod-delete"]⟩),
  ("P99", ⟨"Emit final constitutional summary only after all prior phases are known.",
    ["LAW_5_PHASE_CONTRACT", "LAW_6_PROVENANCE",
     "LAW_9_PHASE_END_CONSTITUTIONAL_VALIDATION"],
    ["flow-summary"]⟩)]

/-- `PHASE_CONTRACTS.get(expected_phase)`. -/
def lookupContract (p : String) : Option PhaseContract :=
  (PHASE_CONTRACTS.find? (fun kv => kv.1 = p)).map (·.2)

def requiredFields : List String :=
  ["flow_id", "phase_id", "active_config_path", "active_config_sha256",
   "command_name", "command_rc", "phase_status", "transport_hint",
   "intent_mode", "contract_intent", "applicable_laws", "flow_start_artifact"]

/-- `str(evidence.get(k, ""))`. -/
def evStr (ev : Obj) (k : String) : String :=
  pyStr (getD ev k (.str ""))

/-- Schema completeness: one `missing_field:<name>` per absent required
field, each adding the provenance law. -/
def checkRequired (ev : Obj) : List String × List String :=
  let missing := requiredFields.filter (fun f => ! containsKey ev f)
  (missing.map (fun f => "missing_field:" ++ f),
   missing.map (fun _ => "LAW_6_PROVENANCE"))

/-- Law coverage: `applicable_laws` must be a list covering the phase's
required laws. -/
def checkApplicable (ev : Obj) (pc : PhaseContract) : List String × List String :=
  match getD ev "applicable_laws" .null with
  | .arr xs =>
    let lawSet := (xs.map (fun v => pyStrip (pyStr v))).filter (fun s => !(s == ""))
    let missing := sortStr (pc.laws.filter (fun l => ! lawSet.contains l))
    (missing.map (fun l => "missing_applicable_law:" ++ l),
     if missing.isEmpty then [] else pc.laws)
  | _ =>
    let missing := sortStr pc.laws
    ("applicable_laws_not_list" :: missing.map (fun l => "missing_applicable_law:" ++ l),
     "LAW_6_PROVENANCE" :: (if missing.isEmpty then [] else pc.laws))

/-- Flow-start linkage: locate and parse `flow_start_artifact`; on any
failure the payload stays the (falsy) empty dict. -/
def flowStartLoad (flowRaw : String) (fs : FileSys) :
    (List String × List String) × Json :=
  if flowRaw = "" then ((["missing_flow_start_artifact"], ["LAW_6_PROVENANCE"]), .obj [])
  else
    match fs flowRaw with
    | none => ((["flow_start_missing"], ["LAW_6_PROVENANCE"]), .obj [])
    | some none => ((["flow_start_invalid_json"], ["LAW_6_PROVENANCE"]), .obj [])
    | some (some j) => (([], []), j)

def laterPhases : List String :=
  ["P20", "P30", "P40", "P50", "P60", "P70", "P80", "P90", "P99"]

/-- Drift detection against the flow-start payload.  A truthy payload that
is not a dict makes `flow_start_payload.get` raise `AttributeError`
(uncaught in the source). -/
def checkDrift (payload : Json) (ev : Obj) (phaseId configSha : String) :
    Except PyErr (List String × List String) :=
  if pyTruthy payload then
    match payload with
    | .obj pk =>
      let startFlowId := pyStrip (pyStr (getD pk "flow_id" (.str "")))
      let v1 :=
        if startFlowId ≠ "" ∧ startFlowId ≠ pyStrip (evStr ev "flow_id") then
          (["flow_id_mismatch"], ["LAW_6_PROVENANCE"])
        else ([], [])
      let startSha := pyStrip (pyStr (getD pk "active_config_sha256" (.str "")))
      let v2 :=
        if startSha ≠ "" ∧ configSha ≠ "" ∧ startSha ≠ configSha then
          (["config_sha_drift"], ["LAW_1_CANONICAL_CONFIG"])
        else ([], [])
      let v3 :=
        if laterPhases.contains phaseId then
          let startTarget := pyStrip (pyStr (getD pk "lium_target" (.str "")))
          let curTarget := pyStrip (evStr ev "lium_target")
          let a :=
            if startTarget ≠ "" ∧ curTarget ≠ "" ∧ startTarget ≠ curTarget then
              (["target_drift_from_flow_start"], ["LAW_3_TARGET_RESOLUTION"])
            else ([], [])
          let startFb := pyStrip (pyStr (getD pk "ops_default_host" (.str "")))
          let curFb := pyStrip (evStr ev "ops_default_host")
          let b :=
            if startFb ≠ "" ∧ curFb ≠ "" ∧ startFb ≠ curFb then
              (["fallback_host_drift_from_flow_start"], ["LAW_3_TARGET_RESOLUTION"])
            else ([], [])
          (a.1 ++ b.1, a.2 ++ b.2)
        else ([], [])
      .ok (v1.1 ++ v2.1 ++ v3.1, v1.2 ++ v2.2 ++ v3.2)
    | _ => .error .attributeError
  else .ok ([], [])

/-- Phase-specific rules for P20, P50/P60 and P90. -/
def checkPhaseSpecific (ev : Obj) (phaseId : String) : List String × List String :=
  let p20 :=
    if phaseId = "P20" ∧ pyStrip (evStr ev "lium_target") = "" ∧
        pyStrip (evStr ev "ops_default_host") = "" then
      (["target_not_resolved"], ["LAW_3_TARGET_RESOLUTION"])
    else ([], [])
  let p56 :=
    if ["P50", "P60"].contains phaseId ∧ pyStrip (evStr ev "repo_url") = "" then
      (["repo_url_missing"], ["LAW_5_PHASE_CONTRACT"])
    else ([], [])
  let p90 :=
    if phaseId = "P90" ∧ ! ["keep", "delete"].contains (pyStrip (evStr ev "teardown_mode")) then
      (["invalid_teardown_mode"], ["LAW_7_EXPLICIT_DESTRUCTION"])
    else ([], [])
  (p20.1 ++ p56.1 ++ p90.1, p20.2 ++ p56.2 ++ p90.2)

/-- `validate_evidence(evidence, expected_phase)` from
`workflow_phase_court.py`; the flow-start snapshot filesystem is passed
explicitly.  Violations are accumulated in source order; the law set is
returned as `sorted(laws)`. -/
def validate_evidence (ev : Obj) (expectedPhase : String) (fs : FileSys) :
    Except PyErr (List String × List String) :=
  match lookupContract expectedPhase with
  | none => .ok (["unknown_phase_contract"], ["LAW_5_PHASE_CONTRACT"])
  | some pc =>
    let phaseId := evStr ev "phase_id"
    let configSha := pyStrip (evStr ev "active_config_sha256")
    let c1 := checkRequired ev
    let c2 :=
      if expectedPhase ≠ "" ∧ phaseId ≠ expectedPhase then
        (["phase_mismatch"], ["LAW_5_PHASE_CONTRACT"])
      else ([], [])
    let c3 :=
      if pyStrip (evStr ev "intent_mode") ≠ "mandated_contract_or_die" then
        (["intent_mode_violation"], ["LAW_5_PHASE_CONTRACT"])
      else ([], [])
    let c4 :=
      if pyStrip (evStr ev "contract_intent") ≠ pc.intent then
        (["contract_intent_mismatch"], ["LAW_5_PHASE_CONTRACT"])
      else ([], [])
    let c5 :=
      if pc.commands.contains (pyStrip (evStr ev "command_name")) then ([], [])
      else (["intent_command_mismatch"], ["LAW_5_PHASE_CONTRACT"])
    let c6 := checkApplicable ev pc
    let c7 :=
      if evStr ev "phase_status" ≠ "ok" then
        (["phase_status_not_ok"], ["LAW_5_PHASE_CONTRACT"])
      else ([], [])
    let c8 :=
      if pyToIntD (getD ev "command_rc" (.num 1)) 1 ≠ 0 then
        (["command_rc_non_zero"], ["LAW_5_PHASE_CONTRACT"])
      else ([], [])
    let c9 :=
      if configSha = "" then (["missing_config_sha256"], ["LAW_6_PROVENANCE"])
      else ([], [])
    let fsl := flowStartLoad (pyStrip (evStr ev "flow_start_artifact")) fs
    match checkDrift fsl.2 ev phaseId configSha with
    | .error e => .error e
    | .ok c10 =>
      let c11 := checkPhaseSpecific ev phaseId
      .ok (c1.1 ++ c2.1 ++ c3.1 ++ c4.1 ++ c5.1 ++ c6.1 ++ c7.1 ++ c8.1 ++
             c9.1 ++ fsl.1.1 ++ c10.1 ++ c11.1,
           sortedDedup (c1.2 ++ c2.2 ++ c3.2 ++ c4.2 ++ c5.2 ++ c6.2 ++ c7.2 ++
             c8.2 ++ c9.2 ++ fsl.1.2 ++ c10.2 ++ c11.2))

/-- The verdict written when the evidence file does not exist. -/
def missingVerdict (phase now : String) : Json :=
  .obj [("phase", .str phase), ("status", .str "unverified"),
        ("pass", .bool false),
        ("violations", .arr [.str "missing_evidence_file"]),
        ("violated_laws", .arr [.str "LAW_6_PROVENANCE"]),
        ("checked_at", .str now),
        ("engine", .str "workflow_phase_court.py"),
        ("remediation", .str "re-run the failed phase to regenerate evidence")]

/-- The verdict written when the evidence file exists but does not parse
as JSON. -/
def invalidVerdict (phase now : String) : Json :=
  .obj [("phase", .str phase), ("status", .str "unverified"),
        ("pass", .bool false),
        ("violations", .arr [.str "invalid_evidence_json"]),
        ("violated_laws", .arr [.str "LAW_6_PROVENANCE"]),
        ("checked_at", .str now),
        ("engine", .str "workflow_phase_court.py"),
        ("remediation", .str "fix evidence writer and re-run flow")]

/-- The verdict for evidence that parsed: `pass`, or `fail` on a
non-empty violation list. -/
def judgedVerdict (phase now evPath : String)
    (violations laws : List String) : Json :=
  let ok := violations.isEmpty
  .obj [("phase", .str phase),
        ("status", .str (if ok then "pass" else "fail")),
        ("pass", .bool ok),
        ("violations", .arr (violations.map .str)),
        ("violated_laws", .arr (laws.map .str)),
        ("checked_at", .str now),
        ("engine", .str "workflow_phase_court.py"),
        ("evidence", .str evPath),
        ("remediation",
         .str (if ok then "none" else "inspect phase verdict artifacts and rerun flow"))]

/-- `main()` of `workflow_phase_court.py`: `evidence` is the state of the
evidence file (absent / unparsable / parsed), `fs` serves the flow-start
artifact reads, and `now` stands for `now_utc()`.  Returns the verdict
payload, the process exit code and the write trace, or the uncaught
exception.  A parsed evidence document that is not a JSON object crashes
inside `validate_evidence` (the first `evidence.get` attribute access). -/
def court_main (evidence : Option (Option Json)) (fs : FileSys)
    (phase now evidencePath outputPath : String) :
    Except PyErr (Json × Int × List FsOp) :=
  match evidence with
  | none =>
    let v := missingVerdict phase now
    .ok (v, 0, [.writeFile outputPath (pyJsonDumps v ++ "\n")])
  | some none =>
    let v := invalidVerdict phase now
    .ok (v, 0, [.writeFile outputPath (pyJsonDumps v ++ "\n")])
  | some (some (.obj kvs)) =>
    match validate_evidence kvs phase fs with
    | .error e => .error e
    | .ok (viols, laws) =>
      let v := judgedVerdict phase now evidencePath viols laws
      .ok (v, 0, [.writeFile outputPath (pyJsonDumps v ++ "\n")])
  | some (some _) => .error .attributeError

/-- Field access on a JSON object value. -/
def Json.getKey (j : Json) (k : String) : Option Json :=
  match j with
  | .obj kvs => lookupLast kvs k
  | _ => none

/-- The `status` field of the verdict a court invocation produced, if it
produced one. -/
def statusOfResult : Except PyErr (Json × Int × List FsOp) → Option Json
  | .error _ => none
  | .ok (v, _, _) => v.getKey "status"

/-- The write trace of a court invocation (empty when it crashed). -/
def traceOf : Except PyErr (Json × Int × List FsOp) → List FsOp
  | .error _ => []
  | .ok (_, _, tr) => tr

/-- `True` when every file content in the trace ends with a newline. -/
def writesEndNl (tr : List FsOp) : Bool :=
  tr.all (fun op =>
    match op with
    | .writeFile _ c => endsWithNewline c
    | _ => true)

/-! ## Sweep status aggregator (`infra_scripts/sweeps/sweep_status.py`) -/

/-- Observable state of one run directory under the output root. -/
inductive RunDirState where
  | noDir
  | dirOnly
  | badSummary
  | summary (j : Json)

/-- The five buckets of `compute_status`. -/
inductive Bucket where
  | ok
  | failed
  | inProgress
  | missingDir
  | parseError
deriving DecidableEq

/-- `Status` dataclass from `sweep_status.py`. -/
structure SweepStatus where
  ok : List String
  failed : List String
  in_progress : List String
  missing_dir : List String
  parse_error : List String

def SweepStatus.bucket (st : SweepStatus) : Bucket → List String
  | .ok => st.ok
  | .failed => st.failed
  | .inProgress => st.in_progress
  | .missingDir => st.missing_dir
  | .parseError => st.parse_error

def SweepStatus.push (st : SweepStatus) (b : Bucket) (rid : String) : SweepStatus :=
  match b with
  | .ok => { st with ok := st.ok ++ [rid] }
  | .failed => { st with failed := st.failed ++ [rid] }
  | .inProgress => { st with in_progress := st.in_progress ++ [rid] }
  | .missingDir => { st with missing_dir := st.missing_dir ++ [rid] }
  | .parseError => { st with parse_error := st.parse_error ++ [rid] }

/-- The classification of one run id in `compute_status`'s loop body.  A
summary that parses to a non-dict JSON value makes `data.get("ok")` raise
`AttributeError` (uncaught in the source). -/
def classify : RunDirState → Except PyErr Bucket
  | .noDir => .ok .missingDir
  | .dirOnly => .ok .inProgress
  | .badSummary => .ok .parseError
  | .summary (.obj kvs) =>
    match lookupLast kvs "ok" with
    | some (.bool true) => .ok .ok
    | _ => .ok .failed
  | .summary _ => .error .attributeError

def computeStatusAux (fs : String → RunDirState) :
    List String → SweepStatus → Except PyErr SweepStatus
  | [], st => .ok st
  | rid :: rest, st =>
    match classify (fs rid) with
    | .error e => .error e
    | .ok b => computeStatusAux fs rest (st.push b rid)

/-- `compute_status(out_root, run_ids)`: the per-run filesystem is the
function `fs`. -/
def compute_status (fs : String → RunDirState) (runIds : List String) :
    Except PyErr SweepStatus :=
  computeStatusAux fs runIds ⟨[], [], [], [], []⟩

/-! ## Ops CLI (`infra_scripts/ops.py`) -/

/-- The environment variables the ops CLI consults. -/
structure OpsEnv where
  defaultHost : Option String
  remoteOutputsDir : Option String
  remoteRepo : Option String

/-- `resolve_host`: `args.host or os.getenv("OPS_DEFAULT_HOST", "lium")`. -/
def resolve_host (argHost : Option String) (env : OpsEnv) : String :=
  let fallback := env.defaultHost.getD "lium"
  match argHost with
  | some h => orStr h fallback
  | none => fallback

/-- `default_remote_outputs_dir`. -/
def default_remote_outputs_dir (env : OpsEnv) : String :=
  env.remoteOutputsDir.getD "/mnt/pod_artifacts/outputs"

/-- Python `Path(root) / name` rendered back to a string. -/
def pathJoin (root name : String) : String :=
  pyRstripSlash root ++ "/" ++ name

/-- Outcome of one ops operation: the JSON payload printed by
`write_json`, the process exit code, the commands actually executed, and
the local filesystem writes. -/
structure OpResult where
  payload : Json
  exit : Int
  executed : List (List String)
  fsOps : List FsOp

/-- The failure payload `{"ok": False, "host": ..., "error": ...}`. -/
def errPayload (host error : String) : Json :=
  .obj [("ok", .bool false), ("host", .str host), ("error", .str error)]

structure ArchiveArgs where
  host : Option String
  runId : String
  remoteOutputsDir : Option String
  dryRun : Bool

/-- The ssh command `artifacts_archive` renders. -/
def archiveCommand (args : ArchiveArgs) (env : OpsEnv) : List String :=
  let host := resolve_host args.host env
  let remoteOutputs :=
    orStr (args.remoteOutputsDir.getD "") (default_remote_outputs_dir env)
  let remoteDir := pyRstripSlash remoteOutputs ++ "/" ++ args.runId
  ["ssh", host,
   "mkdir -p " ++ remoteDir ++ " && cp /mnt/eval_* " ++ remoteDir ++ "/"]

/-- `artifacts_archive(args)`. -/
def artifacts_archive (args : ArchiveArgs) (env : OpsEnv) (exec : Transport) :
    OpResult :=
  let host := resolve_host args.host env
  let remoteOutputs :=
    orStr (args.remoteOutputsDir.getD "") (default_remote_outputs_dir env)
  let remoteDir := pyRstripSlash remoteOutputs ++ "/" ++ args.runId
  let (result, tr) := run_command (archiveCommand args env) args.dryRun exec
  if result.returncode ≠ 0 then
    ⟨errPayload host (orStr result.stderr result.stdout), result.returncode, tr, []⟩
  else
    ⟨.obj [("ok", .bool true), ("host", .str host),
           ("remote_dir", .str remoteDir),
           ("command", if args.dryRun then .str result.stdout else .null)],
     0, tr, []⟩

structure FetchArgs where
  host : Option String
  runId : String
  remoteOutputsDir : Option String
  localRoot : String
  dryRun : Bool

/-- The scp command `artifacts_fetch` renders. -/
def fetchCommand (args : FetchArgs) (env : OpsEnv) : List String :=
  let host := resolve_host args.host env
  let remoteOutputs :=
    orStr (args.remoteOutputsDir.getD "") (default_remote_outputs_dir env)
  let remoteDir := pyRstripSlash remoteOutputs ++ "/" ++ args.runId ++ "/"
  ["scp", "-r", host ++ ":" ++ remoteDir, pathJoin args.localRoot args.runId]

/-- `artifacts_fetch(args)`.  Note `ensure_dir(local_dir)` runs before the
dry-run test inside `run_command`, so the local destination directory is
created unconditionally. -/
def artifacts_fetch (args : FetchArgs) (env : OpsEnv) (exec : Transport) :
    OpResult :=
  let host := resolve_host args.host env
  let localDir := pathJoin args.localRoot args.runId
  let mk : List FsOp := [.mkdirAll localDir]
  let remoteOutputs :=
    orStr (args.remoteOutputsDir.getD "") (default_remote_outputs_dir env)
  let remoteDir := pyRstripSlash remoteOutputs ++ "/" ++ args.runId ++ "/"
  let (result, tr) := run_command (fetchCommand args env) args.dryRun exec
  if result.returncode ≠ 0 then
    ⟨errPayload host (orStr result.stderr result.stdout), result.returncode, tr, mk⟩
  else
    ⟨.obj [("ok", .bool true), ("host", .str host),
           ("local_dir", .str localDir),
           ("remote_dir", .str remoteDir),
           ("command", if args.dryRun then .str result.stdout else .null)],
     0, tr, mk⟩

/-! ## Run submission (`runs_submit` in `infra_scripts/ops.py`) -/

/-- `normalize_value`: dicts and lists are dumped as compact JSON, other
values via `str`. -/
def normalize_value : Json → String
  | .arr xs => pyJsonDumpsCompact (.arr xs)
  | .obj kvs => pyJsonDumpsCompact (.obj kvs)
  | v => pyStr v

/-- `flag_for_key`: `--` plus the key with underscores dashed. -/
def flag_for_key (k : String) : String :=
  "--" ++ String.mk (k.toList.map (fun c => if c = '_' then '-' else c))

/-- `build_eval_command(config)`: keys in sorted order; `run_id`/`label`
and `None` values skipped; `True` booleans become bare flags. -/
def build_eval_command (config : Obj) : List String :=
  ["python", "inference/eval_gsm8k.py"] ++
  (sortStr (config.map (·.1))).flatMap (fun k =>
    if k = "run_id" ∨ k = "label" then []
    else
      match getD config k .null with
      | .null => []
      | .bool b => if b then [flag_for_key k] else []
      | v => [flag_for_key k, normalize_value v])

/-- `make_run_id`'s character sanitisation. -/
def safeName (s : String) : String :=
  String.mk (s.toList.map (fun c =>
    if c.isAlphanum || ['.', '_', '-'].contains c then c else '-'))

/-- `make_run_id(config)`; `timestamp` stands for
`time.strftime("%Y%m%d_%H%M%S")`. -/
def make_run_id (config : Obj) (timestamp : String) : String :=
  let envId := pyStr (getD config "env_id" (.str "env"))
  let modelId := pyStr (getD config "model_id" (.str "model"))
  let numExamples := getD config "num_examples" (.num 0)
  let rollouts := getD config "rollouts_per_example" (.num 0)
  let bestOf := pyOr (getD config "best_of" (.num 0)) (.num 0)
  let seed := getD config "seed" (.num 0)
  timestamp ++ "_" ++ safeName envId ++ "_" ++ safeName modelId ++
    "_n" ++ pyStr numExamples ++ "_r" ++ pyStr rollouts ++
    "_b" ++ pyStr bestOf ++ "_seed" ++ pyStr seed

/-- Python `{**a, **b}`. -/
def dictMerge (a b : Obj) : Obj :=
  a.map (fun kv => (kv.1, (lookupLast b kv.1).getD kv.2)) ++
  b.filter (fun kv => ! containsKey a kv.1)

/-- Python `d[k] = v` on a dict with insertion-ordered keys. -/
def setKey (kvs : Obj) (k : String) (v : Json) : Obj :=
  if containsKey kvs k then
    kvs.map (fun kv => if kv.1 = k then (k, v) else kv)
  else kvs ++ [(k, v)]

/-- Everything `runs_submit` derives for one run row before the
skip-check and dispatch. -/
structure RowData where
  runId : String
  runDir : String
  merged : Obj
  baseCmd : String

def mkRowData (defaults run : Obj) (remoteOutputs repo timestamp : String) :
    RowData :=
  let merged := dictMerge defaults run
  let runIdJ := pyOr (getD merged "run_id" .null) (.str (make_run_id merged timestamp))
  let runId := pyStr runIdJ
  let runDirJ := pyOr (getD merged "run_dir" .null)
    (.str (pyRstripSlash remoteOutputs ++ "/" ++ runId))
  let runDir := pyStr runDirJ
  let merged := setKey merged "run_dir" runDirJ
  let cmdStr := shell_join (build_eval_command merged)
  let stdoutLog := pyRstripSlash runDir ++ "/stdout.log"
  ⟨runId, runDir, merged,
   "mkdir -p " ++ shlexQuote runDir ++ " && cd " ++ shlexQuote repo ++ " && " ++
     cmdStr ++ " | tee " ++ shlexQuote stdoutLog⟩

/-- The remote existence probe for a row's `summary.json`. -/
def rowCheckCmd (host runDir : String) : List String :=
  ["ssh", host, "test -f " ++ shlexQuote runDir ++ "/summary.json"]

/-- The remote command dispatched for a row: wrapped into a
reuse-or-create tmux session when one is configured. -/
def rowRemoteCmd (sessionJ : Json) (baseCmd : String) : String :=
  if pyTruthy sessionJ then
    let s := shlexQuote (pyStr sessionJ)
    "tmux has-session -t " ++ s ++ " 2>/dev/null || tmux new-session -d -s " ++
      s ++ "; tmux send-keys -t " ++ s ++ " " ++ shlexQuote baseCmd ++ " C-m"
  else baseCmd

/-- Resolved context for the submission loop. -/
structure SubmitCtx where
  host : String
  defaults : Obj
  repo : String
  remoteOutputs : String
  sessionJ : Json
  force : Bool
  dryRun : Bool
  exec : Transport
  timestamp : String

/-- Accumulated state of the submission loop. -/
structure SubState where
  queued : List String
  skipped : List String
  commands : List String
  executed : List (List String)

/-- Dispatch one row; on a non-zero returncode the whole submission
aborts with that row's error.  (`run_command` is pure, so projecting its
result twice denotes the single call the source makes.) -/
def dispatchRow (ctx : SubmitCtx) (rd : RowData) (st : SubState) :
    Except (String × Int × SubState) SubState :=
  let remoteCmd := rowRemoteCmd ctx.sessionJ rd.baseCmd
  let result := (run_command ["ssh", ctx.host, remoteCmd] ctx.dryRun ctx.exec).1
  let st1 := { st with
    executed := st.executed ++ (run_command ["ssh", ctx.host, remoteCmd] ctx.dryRun ctx.exec).2,
    commands := st.commands ++ [if ctx.dryRun then result.stdout else remoteCmd] }
  if result.returncode ≠ 0 then
    .error (orStr result.stderr result.stdout, result.returncode, st1)
  else .ok { st1 with queued := st1.queued ++ [rd.runId] }

/-- The body of `runs_submit`'s `for run in runs` loop: non-dict rows are
skipped; unless forced (and not in dry-run), a row whose remote
`summary.json` already exists is recorded under `skipped` and not
dispatched. -/
def submitStep (ctx : SubmitCtx) (row : Json) (st : SubState) :
    Except (String × Int × SubState) SubState :=
  match row with
  | .obj run =>
    let rd := mkRowData ctx.defaults run ctx.remoteOutputs ctx.repo ctx.timestamp
    if ¬ ctx.force ∧ ¬ ctx.dryRun then
      let chk := (run_command (rowCheckCmd ctx.host rd.runDir) false ctx.exec).1
      let st1 := { st with
        executed := st.executed ++ (run_command (rowCheckCmd ctx.host rd.runDir) false ctx.exec).2 }
      if chk.returncode = 0 then .ok { st1 with skipped := st1.skipped ++ [rd.runId] }
      else dispatchRow ctx rd st1
    else dispatchRow ctx rd st
  | _ => .ok st

def processRuns (ctx : SubmitCtx) :
    List Json → SubState → Except (String × Int × SubState) SubState
  | [], st => .ok st
  | row :: rest, st =>
    match submitStep ctx row st with
    | .error e => .error e
    | .ok st1 => processRuns ctx rest st1

structure SubmitArgs where
  host : Option String
  remoteRepo : Option String
  remoteOutputsDir : Option String
  force : Bool
  noTmux : Bool
  dryRun : Bool

def optStrJ : Option String → Json
  | some s => .str s
  | none => .null

/-- `runs_submit(args)` over the already-parsed config object `cfg`
(`load_config` is a plain `json.loads` of the config file). -/
def runs_submit (cfg : Obj) (args : SubmitArgs) (env : OpsEnv)
    (exec : Transport) (timestamp : String) : OpResult :=
  let host := resolve_host args.host env
  -- a non-dict truthy `defaults` would raise TypeError in `{**defaults, **run}`;
  -- only the dict-or-absent shape is modelled
  let defaults : Obj :=
    match getD cfg "defaults" (.obj []) with
    | .obj d => d
    | _ => []
  let runsJ := getD cfg "runs" (.arr [])
  let remoteRepoJ := pyOr (getD cfg "remote_repo" .null)
    (pyOr (optStrJ args.remoteRepo) (optStrJ env.remoteRepo))
  let remoteOutputs := pyStr (pyOr (getD cfg "remote_outputs_dir" .null)
    (pyOr (optStrJ args.remoteOutputsDir) (.str (default_remote_outputs_dir env))))
  let sessionJ := if args.noTmux then .null else getD cfg "tmux_session" (.str "pilots")
  match runsJ with
  | .arr rows =>
    if ¬ pyTruthy remoteRepoJ then
      ⟨.obj [("ok", .bool false),
             ("error", .str "remote_repo not set. Provide in config, --remote-repo, or OPS_REMOTE_REPO.")],
       2, [], []⟩
    else
      let ctx : SubmitCtx :=
        ⟨host, defaults, pyStr remoteRepoJ, remoteOutputs, sessionJ,
         args.force, args.dryRun, exec, timestamp⟩
      match processRuns ctx rows ⟨[], [], [], []⟩ with
      | .error (msg, rc, st) => ⟨errPayload host msg, rc, st.executed, []⟩
      | .ok st =>
        ⟨.obj [("ok", .bool true), ("host", .str host),
               ("queued", .arr (st.queued.map .str)),
               ("skipped", .arr (st.skipped.map .str)),
               ("commands", if args.dryRun then .arr (st.commands.map .str) else .null),
               ("tmux_session", sessionJ)],
         0, st.executed, []⟩
  | _ => ⟨.obj [("ok", .bool false), ("error", .str "runs must be a list")], 2, [], []⟩

/-! ## Run-contract writers (`examples/nanogpt/train.py`) -/

/-- `Path(p).parent` rendered back to a string. -/
def parentDir (p : String) : String :=
  match p.toList.reverse.dropWhile (· ≠ '/') with
  | [] => "."
  | _ :: tail => if tail.isEmpty then "/" else String.mk tail.reverse

/-- `_atomic_write_text(path, text)` as a write trace: create the parent
directory, write the full content to `<path>.tmp`, then `os.replace` the
temp file onto `path` (`path.with_suffix(path.suffix + ".tmp")` appends
`.tmp`). -/
def atomic_write_text (path text : String) : List FsOp :=
  [.mkdirAll (parentDir path),
   .writeFile (path ++ ".tmp") text,
   .rename (path ++ ".tmp") path]

/-- `_atomic_write_json(path, payload)`: the serialized payload plus a
trailing newline, written through the same temp-then-rename sequence. -/
def atomic_write_json (path : String) (payload : Json) : List FsOp :=
  atomic_write_text path (pyJsonDumps payload ++ "\n")

/-! ## Concrete fixtures used by witnesses and counterexamples -/

/-- A filesystem with no readable paths. -/
def fsEmpty : FileSys := fun _ => none

/-- An environment with no ops variables set. -/
def envEmpty : OpsEnv := ⟨none, none, none⟩

/-- A transport on which every command succeeds silently. -/
def execSilent : Transport := fun _ => ⟨"", "", 0⟩

/-- A transport on which every command fails with status 255 (e.g. an ssh
connection error). -/
def exec255 : Transport := fun _ => ⟨"", "remote failure", 255⟩

/-- Whether `s` starts with the characters of `p`. -/
def strStarts (s p : String) : Bool :=
  p.toList.isPrefixOf s.toList

/-- Evidence whose flow-start artifact parses to a JSON array. -/
def evFlowArr : Json := .obj [("flow_start_artifact", .str "fs.json")]

/-- A filesystem on which `fs.json` parses to the JSON array `[1]`. -/
def fsFlowArr : FileSys :=
  fun p => if p = "fs.json" then some (some (.arr [.num 1])) else none

/-- An output root on which every run directory holds a `summary.json`
that parses to the JSON object with no fields at all. -/
def fsOkAbsent : String → RunDirState := fun _ => .summary (.obj [])

/-- Evidence carrying config hash `def` and pointing at `flow.json`. -/
def evDrift : Obj :=
  [("active_config_sha256", .str "def"),
   ("flow_start_artifact", .str "flow.json")]

/-- A filesystem whose `flow.json` is a flow-start snapshot with config
hash `abc`. -/
def fsDrift : FileSys := fun q =>
  if q = "flow.json" then
    some (some (.obj [("active_config_sha256", .str "abc")]))
  else none

/-- `True` when the run-dir state cannot crash `compute_status`: any
summary present parses to a JSON object. -/
def summaryShapeOk : RunDirState → Bool
  | .summary (.obj _) => true
  | .summary _ => false
  | _ => true

/-- `True` when `compute_status` classifies the run id into bucket `b`. -/
def classifiesTo (fs : String → RunDirState) (b : Bucket) (rid : String) : Bool :=
  match classify (fs rid) with
  | .ok b' => b' = b
  | .error _ => false

/-- The row data `runs_submit` derives for a row under a resolved
context. -/
def rowOf (ctx : SubmitCtx) (run : Obj) : RowData :=
  mkRowData ctx.defaults run ctx.remoteOutputs ctx.repo ctx.timestamp

/-- The dispatch command for a row under a resolved context. -/
def rowDispatchCmd (ctx : SubmitCtx) (run : Obj) : List String :=
  ["ssh", ctx.host, rowRemoteCmd ctx.sessionJ (rowOf ctx run).baseCmd]

/-- Submission config with a single completed run (for the dry-run
counterexample). -/
def cfgOneRun : Obj :=
  [("remote_repo", .str "/repo"),
   ("runs", .arr [.obj [("run_id", .str "r1"), ("run_dir", .str "/out/r1")]])]

/-- Submission config with two runs. -/
def cfgTwoRuns : Obj :=
  [("remote_repo", .str "/repo"),
   ("runs", .arr [.obj [("run_id", .str "r1"), ("run_dir", .str "/out/r1")],
                  .obj [("run_id", .str "r2"), ("run_dir", .str "/out/r2")]])]

/-- A transport on which no `summary.json` exists, dispatching into
`/out/r1` succeeds, and every other dispatch fails with `boom`. -/
def execFailSecond : Transport := fun cmd =>
  match cmd with
  | [_, _, s] =>
    if strStarts s "test" then ⟨"", "", 1⟩
    else if strStarts s "mkdir -p /out/r1" then ⟨"", "", 0⟩
    else ⟨"", "boom", 1⟩
  | _ => ⟨"", "", 0⟩

/-- A resolved submission context (not forced, not dry-run, no tmux) on a
transport where every remote command — in particular the `summary.json`
existence probe — returns 0. -/
def ctxProbeHit : SubmitCtx :=
  ⟨"lium", [], "/repo", "/out", .null, false, false, execSilent, "TS"⟩

/-- A resolved forced submission context on a transport where every
remote command fails with status 255. -/
def ctxDispatchFail : SubmitCtx :=
  ⟨"lium", [], "/repo", "/out", .null, true, false, exec255, "TS"⟩

/-! ## Theorems -/

/-- C8: the Phase Court is deterministic: two invocations of
`validate_evidence` on equal evidence documents, equal expected phase and
equal flow-start snapshot contents return identical violation and
violated-law lists (same elements, same order). -/
theorem validate_evidence_deterministic (ev₁ ev₂ : Obj) (p₁ p₂ : String)
    (fs₁ fs₂ : FileSys) (hev : ev₁ = ev₂) (hp : p₁ = p₂) (hfs : fs₁ = fs₂) :
    validate_evidence ev₁ p₁ fs₁ = validate_evidence ev₂ p₂ fs₂ := by
  subst hev hp hfs
  rfl

/-- Witness for C8 at a concrete evidence document, phase and snapshot. -/
theorem validate_evidence_deterministic_witness :
    validate_evidence [("phase_id", .str "P00")] "P00" fsEmpty =
      validate_evidence [("phase_id", .str "P00")] "P00" fsEmpty :=
  validate_evidence_deterministic
    [("phase_id", .str "P00")] [("phase_id", .str "P00")]
    "P00" "P00" fsEmpty fsEmpty rfl rfl rfl

/-- C10: the court does not always exit 0 — a parsed evidence document
whose `flow_start_artifact` file parses to the JSON array `[1]` makes
`flow_start_payload.get("flow_id", ...)` raise `AttributeError`, so the
process aborts with a traceback (non-zero exit) and no verdict file is
ever written. -/
theorem court_crashes_on_array_flow_start :
    court_main (some (some evFlowArr)) fsFlowArr "P00"
      "2026-10-12T00:00:00Z" "ev.json" "out.json" = .error .attributeError := by
  rfl

/-- C2: an absent evidence file yields a written verdict with status
`unverified`, `pass` false, violation `missing_evidence_file` and law
`LAW_6_PROVENANCE` at exit code 0; an unparsable evidence file likewise
with violation `invalid_evidence_json`; and evidence that parses (to an
object) never yields status `unverified` — its verdict, when one is
produced, is `pass` or `fail`. -/
theorem court_unverified_only_on_missing_or_invalid :
    (∀ fs p now evp outp,
      ∃ v tr, court_main none fs p now evp outp = .ok (v, 0, tr) ∧
        v.getKey "status" = some (.str "unverified") ∧
        v.getKey "pass" = some (.bool false) ∧
        v.getKey "violations" = some (.arr [.str "missing_evidence_file"]) ∧
        v.getKey "violated_laws" = some (.arr [.str "LAW_6_PROVENANCE"]) ∧
        ∃ c, tr = [.writeFile outp c]) ∧
    (∀ fs p now evp outp,
      ∃ v tr, court_main (some none) fs p now evp outp = .ok (v, 0, tr) ∧
        v.getKey "status" = some (.str "unverified") ∧
        v.getKey "pass" = some (.bool false) ∧
        v.getKey "violations" = some (.arr [.str "invalid_evidence_json"]) ∧
        v.getKey "violated_laws" = some (.arr [.str "LAW_6_PROVENANCE"]) ∧
        ∃ c, tr = [.writeFile outp c]) ∧
    (∀ kvs fs p now evp outp,
      statusOfResult (court_main (some (some (.obj kvs))) fs p now evp outp) ≠
        some (.str "unverified")) := by
  refine ⟨?_, ?_, ?_⟩
  · intro fs p now evp outp
    exact ⟨missingVerdict p now, _, rfl, rfl, rfl, rfl, rfl, _, rfl⟩
  · intro fs p now evp outp
    exact ⟨invalidVerdict p now, _, rfl, rfl, rfl, rfl, rfl, _, rfl⟩
  · intro kvs fs p now evp outp
    unfold court_main
    cases h : validate_evidence kvs p fs with
    | error e => simp [statusOfResult, h]
    | ok r =>
      obtain ⟨viols, laws⟩ := r
      have hs : (judgedVerdict p now evp viols laws).getKey "status" =
          some (.str (if viols.isEmpty then "pass" else "fail")) := rfl
      simp only [h, statusOfResult, hs]
      split <;> simp

theorem endsWithNewline_append (s : String) : endsWithNewline (s ++ "\n") = true := by
  have h : (s ++ "\n").toList = s.toList ++ ['\n'] := by
    simp [String.toList]
  simp [endsWithNewline, h]

/-- C9 counterexample: the Phase Court does not write its verdict via
write-to-temp-then-rename — a concrete invocation produces exactly one
direct write to the destination path, with no temporary file and no
rename step in its trace. -/
theorem court_verdict_write_direct :
    ∃ v c, court_main none fsEmpty "P00" "T" "ev.json" "out.json" =
        .ok (v, 0, [FsOp.writeFile "out.json" c]) ∧
      [FsOp.writeFile "out.json" c].all (fun op => ! op.isRen) = true :=
  ⟨_, _, rfl, rfl⟩

/-- C9 (amended): the run-contract writers `_atomic_write_json` /
`_atomic_write_text` write the full content to `<path>.tmp` and rename it
over the destination; the Phase Court, however, writes its verdict with a
single direct write (no temp-then-rename), and every verdict content the
court writes ends with a trailing newline. -/
theorem atomic_write_discipline :
    (∀ path payload, atomic_write_json path payload =
      [FsOp.mkdirAll (parentDir path),
       FsOp.writeFile (path ++ ".tmp") (pyJsonDumps payload ++ "\n"),
       FsOp.rename (path ++ ".tmp") path]) ∧
    (∀ path text, atomic_write_text path text =
      [FsOp.mkdirAll (parentDir path),
       FsOp.writeFile (path ++ ".tmp") text,
       FsOp.rename (path ++ ".tmp") path]) ∧
    (∀ evidence fs p now evp outp,
      writesEndNl (traceOf (court_main evidence fs p now evp outp)) = true) := by
  refine ⟨fun _ _ => rfl, fun _ _ => rfl, ?_⟩
  intro evidence fs p now evp outp
  cases evidence with
  | none => simp [court_main, traceOf, writesEndNl, endsWithNewline_append]
  | some o =>
    cases o with
    | none => simp [court_main, traceOf, writesEndNl, endsWithNewline_append]
    | some j =>
      cases j with
      | obj kvs =>
        cases h : validate_evidence kvs p fs with
        | error e => simp [court_main, h, traceOf, writesEndNl]
        | ok r =>
          obtain ⟨viols, laws⟩ := r
          simp [court_main, h, traceOf, writesEndNl, endsWithNewline_append]
      | null => simp [court_main, traceOf, writesEndNl]
      | bool b => simp [court_main, traceOf, writesEndNl]
      | num n => simp [court_main, traceOf, writesEndNl]
      | str s => simp [court_main, traceOf, writesEndNl]
      | arr xs => simp [court_main, traceOf, writesEndNl]

/-- C1 counterexample: a dry-run `artifacts fetch` still mutates the
local filesystem — `ensure_dir(local_dir)` runs before the dry-run test,
so on a filesystem with no pre-existing directories the local destination
directory is created. -/
theorem fetch_dry_run_creates_local_dir :
    (artifacts_fetch ⟨none, "r1", none, "artifacts/pod_logs", true⟩ envEmpty
      execSilent).fsOps = [FsOp.mkdirAll "artifacts/pod_logs/r1"] ∧
    applyFsOps ((artifacts_fetch ⟨none, "r1", none, "artifacts/pod_logs", true⟩
      envEmpty execSilent).fsOps) [] = ["artifacts/pod_logs/r1"] ∧
    (["artifacts/pod_logs/r1"] : List String) ≠ [] :=
  ⟨rfl, rfl, by simp⟩

/-- C1 (amended): under `dry_run` the executor runs nothing and reports
the shlex-joined argument vector as `stdout` with returncode 0 and empty
stderr, so no remote state is mutated and the reported `command` field of
`artifacts archive`/`artifacts fetch` is exactly the shell-quoted command;
the one filesystem mutation that still happens is `artifacts fetch`
creating its local destination directory. -/
theorem dry_run_reports_shlex_command :
    (∀ cmd exec, run_command cmd true exec = (⟨shell_join cmd, "", 0⟩, [])) ∧
    (∀ h r o env exec,
      (artifacts_archive ⟨h, r, o, true⟩ env exec).executed = [] ∧
      (artifacts_archive ⟨h, r, o, true⟩ env exec).fsOps = [] ∧
      (artifacts_archive ⟨h, r, o, true⟩ env exec).payload.getKey "command" =
        some (.str (shell_join (archiveCommand ⟨h, r, o, true⟩ env))) ∧
      (artifacts_archive ⟨h, r, o, true⟩ env exec).exit = 0) ∧
    (∀ h r o lr env exec,
      (artifacts_fetch ⟨h, r, o, lr, true⟩ env exec).executed = [] ∧
      (artifacts_fetch ⟨h, r, o, lr, true⟩ env exec).fsOps =
        [FsOp.mkdirAll (pathJoin lr r)] ∧
      (artifacts_fetch ⟨h, r, o, lr, true⟩ env exec).payload.getKey "command" =
        some (.str (shell_join (fetchCommand ⟨h, r, o, lr, true⟩ env))) ∧
      (artifacts_fetch ⟨h, r, o, lr, true⟩ env exec).exit = 0) :=
  ⟨fun _ _ => rfl,
   fun _ _ _ _ _ => ⟨rfl, rfl, rfl, rfl⟩,
   fun _ _ _ _ _ _ => ⟨rfl, rfl, rfl, rfl⟩⟩

/-- C6 counterexample: on a transport failure the remote returncode is
passed through as the process exit code, so an ssh connection error (255)
exits with code 255, not 1. -/
theorem archive_exits_with_remote_code :
    (artifacts_archive ⟨none, "r1", none, false⟩ envEmpty exec255).exit = 255 ∧
    (artifacts_archive ⟨none, "r1", none, false⟩ envEmpty exec255).payload.getKey "ok" =
      some (.bool false) ∧
    (artifacts_archive ⟨none, "r1", none, false⟩ envEmpty exec255).payload.getKey "error" =
      some (.str "remote failure") ∧
    (255 : Int) ≠ 1 :=
  ⟨rfl, rfl, rfl, by decide⟩

/-- C6 (amended): when the remote command of `artifacts archive` or
`artifacts fetch` returns non-zero, the emitted JSON carries `ok: false`
and an `error` field, and the process exits with the remote command's own
(non-zero) returncode — which need not be 1. -/
theorem transport_failure_reported :
    (∀ h r o env exec,
      (exec (archiveCommand ⟨h, r, o, false⟩ env)).returncode ≠ 0 →
      (artifacts_archive ⟨h, r, o, false⟩ env exec).payload.getKey "ok" =
        some (.bool false) ∧
      (∃ e, (artifacts_archive ⟨h, r, o, false⟩ env exec).payload.getKey "error" =
        some (.str e)) ∧
      (artifacts_archive ⟨h, r, o, false⟩ env exec).exit =
        (exec (archiveCommand ⟨h, r, o, false⟩ env)).returncode ∧
      (artifacts_archive ⟨h, r, o, false⟩ env exec).exit ≠ 0) ∧
    (∀ h r o lr env exec,
      (exec (fetchCommand ⟨h, r, o, lr, false⟩ env)).returncode ≠ 0 →
      (artifacts_fetch ⟨h, r, o, lr, false⟩ env exec).payload.getKey "ok" =
        some (.bool false) ∧
      (∃ e, (artifacts_fetch ⟨h, r, o, lr, false⟩ env exec).payload.getKey "error" =
        some (.str e)) ∧
      (artifacts_fetch ⟨h, r, o, lr, false⟩ env exec).exit =
        (exec (fetchCommand ⟨h, r, o, lr, false⟩ env)).returncode ∧
      (artifacts_fetch ⟨h, r, o, lr, false⟩ env exec).exit ≠ 0) := by
  constructor
  · intro h r o env exec hrc
    unfold artifacts_archive
    simp only [run_command, Bool.false_eq_true, if_false, if_pos hrc]
    exact ⟨rfl, ⟨_, rfl⟩, trivial, hrc⟩
  · intro h r o lr env exec hrc
    unfold artifacts_fetch
    simp only [run_command, Bool.false_eq_true, if_false, if_pos hrc]
    exact ⟨rfl, ⟨_, rfl⟩, trivial, hrc⟩

/-- Witness for C6 (amended) at a failing transport. -/
theorem transport_failure_reported_witness :
    (artifacts_fetch ⟨none, "r1", none, "logs", false⟩ envEmpty exec255).exit = 255 ∧
    (artifacts_fetch ⟨none, "r1", none, "logs", false⟩ envEmpty exec255).exit ≠ 0 ∧
    (artifacts_fetch ⟨none, "r1", none, "logs", false⟩ envEmpty exec255).payload.getKey "ok" =
      some (.bool false) := by
  have h := transport_failure_reported.2 none "r1" none "logs" envEmpty exec255
    (by decide)
  exact ⟨rfl, by rw [h.2.2.1]; decide, h.1⟩

theorem bucket_push (st : SweepStatus) (b b' : Bucket) (rid : String) :
    (st.push b rid).bucket b' = st.bucket b' ++ (if b = b' then [rid] else []) := by
  cases b <;> cases b' <;> simp [SweepStatus.push, SweepStatus.bucket]

theorem computeStatusAux_ok (fs : String → RunDirState) (runIds : List String) :
    ∀ st0, (∀ rid ∈ runIds, summaryShapeOk (fs rid) = true) →
      ∃ st, computeStatusAux fs runIds st0 = .ok st ∧
        ∀ b, st.bucket b = st0.bucket b ++ runIds.filter (classifiesTo fs b) := by
  induction runIds with
  | nil => exact fun st0 _ => ⟨st0, rfl, fun b => by simp⟩
  | cons rid rest ih =>
    intro st0 h
    have hsh : summaryShapeOk (fs rid) = true := h rid (by simp)
    have hcl : ∃ b0, classify (fs rid) = .ok b0 := by
      cases hfs : fs rid with
      | noDir => exact ⟨_, rfl⟩
      | dirOnly => exact ⟨_, rfl⟩
      | badSummary => exact ⟨_, rfl⟩
      | summary j =>
        cases j with
        | obj kvs =>
          cases hlk : lookupLast kvs "ok" with
          | none => exact ⟨.failed, by simp [classify, hlk]⟩
          | some v =>
            cases v with
            | bool bb =>
              cases bb with
              | true => exact ⟨.ok, by simp [classify, hlk]⟩
              | false => exact ⟨.failed, by simp [classify, hlk]⟩
            | null => exact ⟨.failed, by simp [classify, hlk]⟩
            | num n => exact ⟨.failed, by simp [classify, hlk]⟩
            | str s => exact ⟨.failed, by simp [classify, hlk]⟩
            | arr xs => exact ⟨.failed, by simp [classify, hlk]⟩
            | obj kvs2 => exact ⟨.failed, by simp [classify, hlk]⟩
        | null => rw [hfs] at hsh; simp [summaryShapeOk] at hsh
        | bool bb => rw [hfs] at hsh; simp [summaryShapeOk] at hsh
        | num n => rw [hfs] at hsh; simp [summaryShapeOk] at hsh
        | str s => rw [hfs] at hsh; simp [summaryShapeOk] at hsh
        | arr xs => rw [hfs] at hsh; simp [summaryShapeOk] at hsh
    obtain ⟨b0, hb0⟩ := hcl
    obtain ⟨st, hst, hbuck⟩ := ih (st0.push b0 rid) (fun r hr => h r (by simp [hr]))
    refine ⟨st, ?_, ?_⟩
    · simp [computeStatusAux, hb0, hst]
    · intro b
      rw [hbuck b, bucket_push, List.filter_cons]
      have hc : classifiesTo fs b rid = decide (b0 = b) := by
        simp [classifiesTo, hb0]
      rw [hc]
      by_cases hbb : b0 = b
      · subst hbb; simp
      · simp [hbb]

/-- C3 (amended): provided every present summary parses to a JSON object,
each expected run id lands in exactly one bucket, characterised in
priority order: `missing_dir` iff no directory, `in_progress` iff the
directory exists without a summary (never `failed`), `parse_error` iff
the summary is not valid JSON, `ok` iff the parsed summary's `ok` field
is JSON `true`, and `failed` iff the summary parses to an object whose
`ok` field is absent or not `true`.  (A summary parsing to a non-object
JSON value instead crashes the aggregator with `AttributeError`.) -/
theorem sweep_status_partitions (fs : String → RunDirState) (runIds : List String)
    (h : ∀ rid ∈ runIds, summaryShapeOk (fs rid) = true) :
    ∃ st, compute_status fs runIds = .ok st ∧
      ∀ rid ∈ runIds,
        (rid ∈ st.missing_dir ↔ fs rid = .noDir) ∧
        (rid ∈ st.in_progress ↔ fs rid = .dirOnly) ∧
        (rid ∈ st.parse_error ↔ fs rid = .badSummary) ∧
        (rid ∈ st.ok ↔ ∃ kvs, fs rid = .summary (.obj kvs) ∧
          lookupLast kvs "ok" = some (.bool true)) ∧
        (rid ∈ st.failed ↔ ∃ kvs, fs rid = .summary (.obj kvs) ∧
          lookupLast kvs "ok" ≠ some (.bool true)) := by
  obtain ⟨st, hst, hbuck⟩ := computeStatusAux_ok fs runIds ⟨[], [], [], [], []⟩ h
  refine ⟨st, hst, ?_⟩
  intro rid hrid
  have hmem : ∀ b, rid ∈ st.bucket b ↔ classifiesTo fs b rid = true := by
    intro b
    rw [hbuck b]
    have hempty : (SweepStatus.bucket ⟨[], [], [], [], []⟩ b) = [] := by
      cases b <;> rfl
    rw [hempty]
    simp [List.mem_filter, hrid]
  have hok := hmem .ok
  have hfail := hmem .failed
  have hmiss := hmem .missingDir
  have hprog := hmem .inProgress
  have hparse := hmem .parseError
  simp only [SweepStatus.bucket] at hok hfail hmiss hprog hparse
  rw [hmiss, hprog, hparse, hok, hfail]
  cases hfs : fs rid with
  | noDir => simp [classifiesTo, classify, hfs]
  | dirOnly => simp [classifiesTo, classify, hfs]
  | badSummary => simp [classifiesTo, classify, hfs]
  | summary j =>
    cases j with
    | obj kvs =>
      cases hlk : lookupLast kvs "ok" with
      | none => simp [classifiesTo, classify, hfs, hlk]
      | some v =>
        cases v with
        | bool bb =>
          cases bb with
          | true => simp [classifiesTo, classify, hfs, hlk]
          | false => simp [classifiesTo, classify, hfs, hlk]
        | null => simp [classifiesTo, classify, hfs, hlk]
        | num n => simp [classifiesTo, classify, hfs, hlk]
        | str s => simp [classifiesTo, classify, hfs, hlk]
        | arr xs => simp [classifiesTo, classify, hfs, hlk]
        | obj kvs2 => simp [classifiesTo, classify, hfs, hlk]
    | null => exact absurd (h rid hrid) (by rw [hfs]; simp [summaryShapeOk])
    | bool bb => exact absurd (h rid hrid) (by rw [hfs]; simp [summaryShapeOk])
    | num n => exact absurd (h rid hrid) (by rw [hfs]; simp [summaryShapeOk])
    | str s => exact absurd (h rid hrid) (by rw [hfs]; simp [summaryShapeOk])
    | arr xs => exact absurd (h rid hrid) (by rw [hfs]; simp [summaryShapeOk])

/-- Witness for C3 (amended) on the spec's own example: run A has
`summary.json` with `ok: true`, B has a directory but no summary, C has
no directory. -/
theorem sweep_status_partitions_witness :
    ∃ st, compute_status
        (fun rid => if rid = "A" then .summary (.obj [("ok", .bool true)])
          else if rid = "B" then .dirOnly else .noDir)
        ["A", "B", "C"] = .ok st ∧
      "A" ∈ st.ok ∧ "B" ∈ st.in_progress ∧ "C" ∈ st.missing_dir := by
  obtain ⟨st, hst, hch⟩ := sweep_status_partitions
    (fun rid => if rid = "A" then .summary (.obj [("ok", .bool true)])
      else if rid = "B" then .dirOnly else .noDir)
    ["A", "B", "C"] (by intro rid hrid; fin_cases hrid <;> rfl)
  refine ⟨st, hst, ?_, ?_, ?_⟩
  · exact ((hch "A" (by simp)).2.2.2.1).2 ⟨[("ok", .bool true)], rfl, rfl⟩
  · exact ((hch "B" (by simp)).2.1).2 rfl
  · exact ((hch "C" (by simp)).1).2 rfl

/-- C3 counterexample: the claim's description of `failed` — "the `ok`
field is present and not true" — does not match the code: a summary that
parses to an object with no `ok` field at all is also classified
`failed`. -/
theorem sweep_failed_without_ok_field :
    ¬ (∀ (fs : String → RunDirState) (runIds : List String) (st : SweepStatus)
        (rid : String),
        compute_status fs runIds = .ok st → rid ∈ st.failed →
        ∃ kvs v, fs rid = .summary (.obj kvs) ∧ lookupLast kvs "ok" = some v) := by
  intro hclaim
  obtain ⟨kvs, v, hfs, hlk⟩ :=
    hclaim fsOkAbsent ["B"] ⟨[], ["B"], [], [], []⟩ "B" rfl (by simp)
  have hkvs : kvs = [] := by
    have : RunDirState.summary (.obj []) = RunDirState.summary (.obj kvs) := hfs
    injection this with h1
    injection h1 with h2
    exact h2.symm
  rw [hkvs] at hlk
  exact Option.noConfusion hlk

theorem checkDrift_sha (pk : Obj) (ev : Obj) (phaseId configSha : String)
    (hpk : pk ≠ [])
    (hstart : pyStrip (pyStr (getD pk "active_config_sha256" (.str ""))) ≠ "")
    (hcur : configSha ≠ "")
    (hdiff : pyStrip (pyStr (getD pk "active_config_sha256" (.str ""))) ≠ configSha) :
    ∃ r, checkDrift (.obj pk) ev phaseId configSha = .ok r ∧
      "config_sha_drift" ∈ r.1 := by
  obtain ⟨kv, pkrest, rfl⟩ := List.exists_cons_of_ne_nil hpk
  unfold checkDrift
  simp only [pyTruthy, List.isEmpty_cons, Bool.not_false, if_true]
  refine ⟨_, rfl, ?_⟩
  simp [hstart, hcur, hdiff, List.mem_append]

/-- C7: whenever the flow-start artifact parses (to an object) and both
its `active_config_sha256` and the evidence's are non-empty and differ,
`validate_evidence` reports the violation `config_sha_drift`. -/
theorem validate_flags_config_sha_drift (ev : Obj) (p : String)
    (pc : PhaseContract) (fs : FileSys) (pk : Obj) (flowPath : String)
    (hpc : lookupContract p = some pc)
    (hraw : pyStrip (evStr ev "flow_start_artifact") = flowPath)
    (hne : flowPath ≠ "")
    (hfs : fs flowPath = some (some (.obj pk)))
    (hpk : pk ≠ [])
    (hstart : pyStrip (pyStr (getD pk "active_config_sha256" (.str ""))) ≠ "")
    (hcur : pyStrip (evStr ev "active_config_sha256") ≠ "")
    (hdiff : pyStrip (pyStr (getD pk "active_config_sha256" (.str ""))) ≠
      pyStrip (evStr ev "active_config_sha256")) :
    ∃ r, validate_evidence ev p fs = .ok r ∧ "config_sha_drift" ∈ r.1 := by
  have hfsl : flowStartLoad (pyStrip (evStr ev "flow_start_artifact")) fs =
      (([], []), .obj pk) := by
    rw [hraw]
    unfold flowStartLoad
    rw [if_neg hne, hfs]
  obtain ⟨r2, hr2, hmem⟩ := checkDrift_sha pk ev (evStr ev "phase_id")
    (pyStrip (evStr ev "active_config_sha256")) hpk hstart hcur hdiff
  unfold validate_evidence
  simp only [hpc, hfsl, hr2]
  exact ⟨_, rfl, by simp [List.mem_append, hmem]⟩

/-- Witness for C7 on the spec's example: snapshot hash `abc` against
evidence hash `def` yields `config_sha_drift`. -/
theorem validate_flags_config_sha_drift_witness :
    ∃ r, validate_evidence evDrift "P00" fsDrift = .ok r ∧
      "config_sha_drift" ∈ r.1 :=
  validate_flags_config_sha_drift evDrift "P00" _ fsDrift
    [("active_config_sha256", .str "abc")] "flow.json"
    rfl rfl (by decide) rfl (by simp) (by decide) (by decide) (by decide)

theorem dispatchRow_skipped (ctx : SubmitCtx) (rd : RowData) (st st1 : SubState)
    (h : dispatchRow ctx rd st = .ok st1) :
    st.skipped = st1.skipped ∧ ∀ x ∈ st.queued, x ∈ st1.queued := by
  simp only [dispatchRow] at h
  split at h
  · exact absurd h (by simp)
  · injection h with h'
    subst h'
    exact ⟨rfl, fun x hx => by simp [hx]⟩

theorem submitStep_skipped_mono (ctx : SubmitCtx) (row : Json) (st st1 : SubState)
    (h : submitStep ctx row st = .ok st1) : ∀ x ∈ st.skipped, x ∈ st1.skipped := by
  cases row with
  | obj run =>
    simp only [submitStep] at h
    split at h
    · split at h
      · injection h with h'
        subst h'
        intro x hx
        simp [hx]
      · intro x hx
        exact ((dispatchRow_skipped ctx _ _ st1 h).1 ▸ hx)
    · intro x hx
      exact ((dispatchRow_skipped ctx _ _ st1 h).1 ▸ hx)
  | null => injection h with h'; subst h'; exact fun x hx => hx
  | bool b => injection h with h'; subst h'; exact fun x hx => hx
  | num n => injection h with h'; subst h'; exact fun x hx => hx
  | str s => injection h with h'; subst h'; exact fun x hx => hx
  | arr xs => injection h with h'; subst h'; exact fun x hx => hx

theorem processRuns_skipped_mono (ctx : SubmitCtx) (rows : List Json) :
    ∀ st fin, processRuns ctx rows st = .ok fin →
      ∀ x ∈ st.skipped, x ∈ fin.skipped := by
  induction rows with
  | nil =>
    intro st fin h
    injection h with h'
    subst h'
    exact fun x hx => hx
  | cons row rest ih =>
    intro st fin h
    unfold processRuns at h
    cases hs : submitStep ctx row st with
    | error e => rw [hs] at h; exact absurd h (by simp)
    | ok st1 =>
      rw [hs] at h
      exact fun x hx => ih st1 fin h x (submitStep_skipped_mono ctx row st st1 hs x hx)

/-- C4 (amended): in a submission that is neither forced nor dry-run, a
run row whose remote run directory already contains `summary.json` (the
existence probe returns 0) is skipped: only the probe is executed for it
— no dispatch command — its run id is appended to `skipped` while
`queued` is untouched, and if the remaining rows complete, the id is
reported in the final `skipped` list. -/
theorem submit_skips_completed_run (ctx : SubmitCtx) (st : SubState)
    (run : Obj) (rest : List Json)
    (hforce : ctx.force = false) (hdry : ctx.dryRun = false)
    (hchk : (ctx.exec (rowCheckCmd ctx.host (rowOf ctx run).runDir)).returncode = 0) :
    processRuns ctx (.obj run :: rest) st =
      processRuns ctx rest
        { st with
          skipped := st.skipped ++ [(rowOf ctx run).runId],
          executed := st.executed ++ [rowCheckCmd ctx.host (rowOf ctx run).runDir] } ∧
    (∀ fin, processRuns ctx (.obj run :: rest) st = .ok fin →
      (rowOf ctx run).runId ∈ fin.skipped) := by
  have hchk' : (ctx.exec (rowCheckCmd ctx.host
      (mkRowData ctx.defaults run ctx.remoteOutputs ctx.repo ctx.timestamp).runDir)).returncode = 0 := hchk
  have hstep : submitStep ctx (.obj run) st = .ok
      { st with
        skipped := st.skipped ++ [(rowOf ctx run).runId],
        executed := st.executed ++ [rowCheckCmd ctx.host (rowOf ctx run).runDir] } := by
    simp only [submitStep]
    rw [hforce, hdry]
    simp only [Bool.false_eq_true, not_false_eq_true, and_self, if_true, run_command,
      if_false]
    rw [if_pos hchk']
    rfl
  have hmain : processRuns ctx (.obj run :: rest) st =
      processRuns ctx rest
        { st with
          skipped := st.skipped ++ [(rowOf ctx run).runId],
          executed := st.executed ++ [rowCheckCmd ctx.host (rowOf ctx run).runDir] } := by
    conv_lhs => rw [processRuns]
    rw [hstep]
  refine ⟨hmain, ?_⟩
  intro fin h
  rw [hmain] at h
  exact processRuns_skipped_mono ctx rest _ fin h _ (by simp)

/-- Witness for C4 (amended): one completed run, probe answers 0, the run
id ends up in `skipped`. -/
theorem submit_skips_completed_run_witness :
    ∃ fin, processRuns ctxProbeHit
        [.obj [("run_id", .str "r1"), ("run_dir", .str "/out/r1")]]
        ⟨[], [], [], []⟩ = .ok fin ∧ "r1" ∈ fin.skipped := by
  have h := submit_skips_completed_run ctxProbeHit ⟨[], [], [], []⟩
    [("run_id", .str "r1"), ("run_dir", .str "/out/r1")] [] rfl rfl rfl
  exact ⟨_, h.1.trans rfl, h.2 _ (h.1.trans rfl)⟩

/-- C4 counterexample: the skip-check is bypassed in dry-run mode — on a
remote where the completed run's `summary.json` exists (the existence
probe would return 0), a dry-run submission without `--force` still
reports the run under `queued` with an empty `skipped` list, contradicting
the claim for dry-run invocations. -/
theorem submit_dry_run_ignores_completed :
    (runs_submit cfgOneRun ⟨none, none, none, false, true, true⟩ envEmpty
      execSilent "TS").payload.getKey "queued" = some (.arr [.str "r1"]) ∧
    (runs_submit cfgOneRun ⟨none, none, none, false, true, true⟩ envEmpty
      execSilent "TS").payload.getKey "skipped" = some (.arr []) ∧
    (runs_submit cfgOneRun ⟨none, none, none, false, true, true⟩ envEmpty
      execSilent "TS").executed = [] :=
  ⟨rfl, rfl, rfl⟩

/-- C5 (amended): on the first run row whose dispatch returns non-zero
the whole submission stops — no later row is dispatched — and that row's
stderr (or stdout) and returncode are reported; rows already dispatched
stay dispatched and the loop state's `queued`/`skipped` are untouched by
the failing row, but the error payload `{ok, host, error}` carries no
`queued` or `skipped` key at all. -/
theorem submit_aborts_on_dispatch_failure (ctx : SubmitCtx) (run : Obj)
    (rest : List Json) (st : SubState)
    (hdry : ctx.dryRun = false)
    (hnoskip : ctx.force = true ∨
      (ctx.exec (rowCheckCmd ctx.host (rowOf ctx run).runDir)).returncode ≠ 0)
    (hrc : (ctx.exec (rowDispatchCmd ctx run)).returncode ≠ 0) :
    (∃ st1, processRuns ctx (.obj run :: rest) st =
        .error (orStr (pyStrip (ctx.exec (rowDispatchCmd ctx run)).stderr)
                      (pyStrip (ctx.exec (rowDispatchCmd ctx run)).stdout),
                (ctx.exec (rowDispatchCmd ctx run)).returncode, st1) ∧
      st1.queued = st.queued ∧ st1.skipped = st.skipped) ∧
    (∀ host msg,
      (errPayload host msg).getKey "queued" = none ∧
      (errPayload host msg).getKey "skipped" = none ∧
      (errPayload host msg).getKey "ok" = some (.bool false) ∧
      (errPayload host msg).getKey "error" = some (.str msg)) := by
  refine ⟨?_, fun host msg => ⟨rfl, rfl, rfl, rfl⟩⟩
  have hrc' : ¬ (ctx.exec ["ssh", ctx.host, rowRemoteCmd ctx.sessionJ
      (mkRowData ctx.defaults run ctx.remoteOutputs ctx.repo ctx.timestamp).baseCmd]).returncode = 0 :=
    hrc
  have hdisp : ∀ st', dispatchRow ctx
      (mkRowData ctx.defaults run ctx.remoteOutputs ctx.repo ctx.timestamp) st' =
      .error (orStr (pyStrip (ctx.exec (rowDispatchCmd ctx run)).stderr)
                    (pyStrip (ctx.exec (rowDispatchCmd ctx run)).stdout),
              (ctx.exec (rowDispatchCmd ctx run)).returncode,
              { st' with
                executed := st'.executed ++ [rowDispatchCmd ctx run],
                commands := st'.commands ++
                  [rowRemoteCmd ctx.sessionJ (rowOf ctx run).baseCmd] }) := by
    intro st'
    simp only [dispatchRow]
    rw [hdry]
    simp only [run_command, Bool.false_eq_true, if_false]
    rw [if_pos hrc']
    rfl
  cases hf : ctx.force with
  | true =>
    have hstep : submitStep ctx (.obj run) st = dispatchRow ctx
        (mkRowData ctx.defaults run ctx.remoteOutputs ctx.repo ctx.timestamp) st := by
      simp only [submitStep]
      rw [hf]
      simp
    have heq : processRuns ctx (.obj run :: rest) st =
        .error (orStr (pyStrip (ctx.exec (rowDispatchCmd ctx run)).stderr)
                      (pyStrip (ctx.exec (rowDispatchCmd ctx run)).stdout),
                (ctx.exec (rowDispatchCmd ctx run)).returncode,
                { st with
                  executed := st.executed ++ [rowDispatchCmd ctx run],
                  commands := st.commands ++
                    [rowRemoteCmd ctx.sessionJ (rowOf ctx run).baseCmd] }) := by
      conv_lhs => rw [processRuns]
      rw [hstep, hdisp st]
    exact ⟨_, heq, rfl, rfl⟩
  | false =>
    cases hnoskip with
    | inl h => rw [hf] at h; exact absurd h (by simp)
    | inr hchk =>
      have hchk' : ¬ (ctx.exec (rowCheckCmd ctx.host
          (mkRowData ctx.defaults run ctx.remoteOutputs ctx.repo ctx.timestamp).runDir)).returncode = 0 :=
        hchk
      have hstep : submitStep ctx (.obj run) st = dispatchRow ctx
          (mkRowData ctx.defaults run ctx.remoteOutputs ctx.repo ctx.timestamp)
          { st with executed := st.executed ++
              [rowCheckCmd ctx.host (rowOf ctx run).runDir] } := by
        simp only [submitStep]
        rw [hf, hdry]
        simp only [Bool.false_eq_true, not_false_eq_true, and_self, if_true,
          run_command, if_false]
        rw [if_neg hchk']
        rfl
      have heq : processRuns ctx (.obj run :: rest) st =
          .error (orStr (pyStrip (ctx.exec (rowDispatchCmd ctx run)).stderr)
                        (pyStrip (ctx.exec (rowDispatchCmd ctx run)).stdout),
                  (ctx.exec (rowDispatchCmd ctx run)).returncode,
                  { st with
                    executed := (st.executed ++
                      [rowCheckCmd ctx.host (rowOf ctx run).runDir]) ++
                      [rowDispatchCmd ctx run],
                    commands := st.commands ++
                      [rowRemoteCmd ctx.sessionJ (rowOf ctx run).baseCmd] }) := by
        conv_lhs => rw [processRuns]
        rw [hstep, hdisp]
      exact ⟨_, heq, rfl, rfl⟩

/-- Witness for C5 (amended): a forced single-row submission on a
transport failing with 255 aborts with that error. -/
theorem submit_aborts_on_dispatch_failure_witness :
    ∃ st1, processRuns ctxDispatchFail
        [.obj [("run_id", .str "r1"), ("run_dir", .str "/out/r1")]]
        ⟨[], [], [], []⟩ = .error ("remote failure", 255, st1) ∧
      st1.queued = [] := by
  obtain ⟨⟨st1, heq, hq, _⟩, _⟩ := submit_aborts_on_dispatch_failure ctxDispatchFail
    [("run_id", .str "r1"), ("run_dir", .str "/out/r1")] [] ⟨[], [], [], []⟩
    rfl (.inl rfl) (by decide)
  exact ⟨st1, heq, hq⟩

/-- C5 counterexample: with two runs where the first dispatch succeeds
and the second fails, the reported error JSON is exactly
`{ok: false, host, error}` — the accumulated `queued`/`skipped` lists are
not in the reported result (contradicting the claim), even though four
remote commands ran (probe and dispatch of row 1 — which stays dispatched
— then probe and failing dispatch of row 2) and the process exits with
the dispatch returncode. -/
theorem submit_error_report_drops_lists :
    (runs_submit cfgTwoRuns ⟨none, none, none, false, true, false⟩ envEmpty
      execFailSecond "TS").payload =
      .obj [("ok", .bool false), ("host", .str "lium"), ("error", .str "boom")] ∧
    (runs_submit cfgTwoRuns ⟨none, none, none, false, true, false⟩ envEmpty
      execFailSecond "TS").payload.getKey "queued" = none ∧
    (runs_submit cfgTwoRuns ⟨none, none, none, false, true, false⟩ envEmpty
      execFailSecond "TS").payload.getKey "skipped" = none ∧
    (runs_submit cfgTwoRuns ⟨none, none, none, false, true, false⟩ envEmpty
      execFailSecond "TS").exit = 1 ∧
    (runs_submit cfgTwoRuns ⟨none, none, none, false, true, false⟩ envEmpty
      execFailSecond "TS").executed.length = 4 :=
  ⟨rfl, rfl, rfl, rfl, rfl⟩

end InfraSpec
